import Mathlib

/-!
Verification of the HTW_V2H_SS25 energy-system pipeline.

A shallow embedding of the model-construction / solve pipeline of
`src/models/oemof/case1_es_charger_limited_BEV_dumb.py` and of the emobpy
helper modules (`save_profiles.py`, `create_rules.py`,
`calculate_consumption.py`).  Exogenous per-timestep series are embedded as
`List ℚ`, tabular inputs as association lists from column name to series,
and the oemof node graph as an inductive type of typed nodes carrying the
flow attributes actually passed in the source.
-/

namespace Case1

/-! ## Solver invocation and status validation
(`EnergySystemModel.solve_energysystem`, lines 250-285) -/

/-- The pyomo solver-status values the pipeline can observe. -/
inductive SolverStatus where
  | ok
  | warning
  | error
  | aborted
  | unknown
deriving DecidableEq, Repr

/-- The pyomo termination conditions the pipeline can observe. -/
inductive TermCond where
  | optimal
  | infeasible
  | unbounded
  | maxTimeLimit
  | other
deriving DecidableEq, Repr

/-- The solver response, as read off `results.solver` in
`solve_energysystem`: a status, a termination condition and a message. -/
structure SolverResults where
  status : SolverStatus
  termination_condition : TermCond
  message : String
deriving DecidableEq, Repr

def statusName : SolverStatus → String
  | .ok => "ok"
  | .warning => "warning"
  | .error => "error"
  | .aborted => "aborted"
  | .unknown => "unknown"

def termName : TermCond → String
  | .optimal => "optimal"
  | .infeasible => "infeasible"
  | .unbounded => "unbounded"
  | .maxTimeLimit => "maxTimeLimit"
  | .other => "other"

/-- The failure message built in `solve_energysystem`: it interpolates the
raw solver status, the raw termination condition and the solver message. -/
def solveFailureMessage (r : SolverResults) : String :=
  "The energy system could not find a solution. Solver status: "
    ++ statusName r.status
    ++ " Termination condition: " ++ termName r.termination_condition
    ++ " Message: " ++ r.message
    ++ " Simulation aborted."

/-- Embeds the status check of `solve_energysystem`: the code raises a `RuntimeError`
carrying `solveFailureMessage` when
`(status != SolverStatus.ok) or (termination != TerminationCondition.optimal)`,
and reports success otherwise. -/
def solve_energysystem (r : SolverResults) : Except String Unit :=
  if r.status ≠ SolverStatus.ok ∨ r.termination_condition ≠ TermCond.optimal then
    Except.error (solveFailureMessage r)
  else
    Except.ok ()

/-- Outcome of the tail of `EnergySystemModel.Model`: whether the solve
step failed (and with which message), and whether `extract_results` and
`dump_results` were reached. -/
structure PipelineOutcome where
  solveError : Option String
  extracted : Bool
  dumped : Bool
deriving DecidableEq, Repr

/-- The tail of `EnergySystemModel.Model`: `solve_energysystem` runs first;
on its `RuntimeError` the `except` branch prints the message and calls
`exit()`, so neither `extract_results` nor `dump_results` runs; on success
both run. -/
def run_after_solve (r : SolverResults) : PipelineOutcome :=
  match solve_energysystem r with
  | Except.error e => { solveError := some e, extracted := false, dumped := false }
  | Except.ok _ => { solveError := none, extracted := true, dumped := true }

/-! ## Time index and exogenous timeseries
(`define_time_index` lines 141-149, `define_timeseries` lines 151-161) -/

/-- In `define_time_index`: start date of the time index. -/
def start_date : String := "2022-01-01"

/-- In `define_time_index`: number of periods `T` of the time index. -/
def periods : Nat := 672

/-- In `define_time_index`: frequency of the time index (15-minute steps). -/
def freq : String := "15min"

/-- The input table loaded by `get_timeseries`: an association list from
column name to a per-timestep series of values. -/
abbrev Table := List (String × List ℚ)

/-- Column lookup in the table, `df_timeseries["name"]` without the raise:
`some` series when the column exists, `none` when it is absent. -/
def colGet (df : Table) (name : String) : Option (List ℚ) :=
  (df.find? (fun c => c.1 == name)).map (fun c => c.2)

/-- Embeds `df_timeseries["name"]` as pandas performs it: the series when the
column exists, and a `KeyError` carrying the column name otherwise. -/
def requireCol (df : Table) (name : String) : Except String (List ℚ) :=
  match colGet df name with
  | some s => Except.ok s
  | none => Except.error ("KeyError: " ++ name)

/-- The five series `define_timeseries` extracts from the input table. -/
structure Timeseries where
  BEV_state : List ℚ
  PV_load : List ℚ
  demand : List ℚ
  BEV_consumption : List ℚ
  BEV_charging : List ℚ
deriving DecidableEq, Repr

/-- Embeds `define_timeseries` (lines 151-161): reads the five required columns
from the input table by name.  A missing column raises pandas' `KeyError`;
no other validation (in particular no length check against `periods`)
happens here. -/
def define_timeseries (df : Table) : Except String Timeseries := do
  let bev ← requireCol df "BEV_at_home"
  let pv ← requireCol df "PV_kW"
  let load ← requireCol df "Load_kW"
  let cons ← requireCol df "consumption"
  let charge ← requireCol df "charging_power_kW"
  return { BEV_state := bev, PV_load := pv, demand := load,
           BEV_consumption := cons, BEV_charging := charge }

/-- The required column names, in the order `define_timeseries` reads them. -/
def requiredColumns : List String :=
  ["BEV_at_home", "PV_kW", "Load_kW", "consumption", "charging_power_kW"]

/-! ## Network model construction (`create_oemof_objects`, lines 163-230) -/

/-- An oemof `flows.Flow`, restricted to the keyword arguments the source
passes: `fix`, `max`, `nominal_value`, `variable_costs`.  Omitted arguments
keep oemof's defaults (`fix`/`max` unset, `nominal_value` unset,
`variable_costs = 0`). -/
structure Flow where
  fix : Option (List ℚ) := none
  max : Option (List ℚ) := none
  nominal_value : Option ℚ := none
  variable_costs : ℚ := 0
deriving DecidableEq, Repr

/-- A `cmp.Source`: a label and its outbound flows, keyed by target bus. -/
structure SourceNode where
  label : String
  outputs : List (String × Flow)
deriving DecidableEq, Repr

/-- A `cmp.Sink`: a label and its inbound flows, keyed by origin bus. -/
structure SinkNode where
  label : String
  inputs : List (String × Flow)
deriving DecidableEq, Repr

/-- A `cmp.GenericStorage`, restricted to the attributes the source sets. -/
structure StorageNode where
  label : String
  inputs : List (String × Flow)
  outputs : List (String × Flow)
  nominal_storage_capacity : ℚ
  min_storage_level : ℚ
  max_storage_level : ℚ
  initial_storage_level : ℚ
  fixed_losses_absolute : List ℚ
deriving DecidableEq, Repr

/-- A node added to the `EnergySystem` by `create_oemof_objects`. -/
inductive Node where
  | bus (label : String) (balanced : Bool)
  | source (s : SourceNode)
  | sink (s : SinkNode)
  | storage (s : StorageNode)
deriving DecidableEq, Repr

/-- Embeds `create_oemof_objects` (lines 163-230): builds the two buses, the pv /
wallbox / grid-supply sources, the excess / demand sinks and the BEV
storage, in the order the source adds them to the energy system.
`grid_supply` and `wallbox_power` are the parameters set in `main`
(30 kW and 11 kW). -/
def create_oemof_objects (ts : Timeseries) (grid_supply wallbox_power : ℚ) :
    List Node :=
  let PV_variable_costs : ℚ := 0
  let Grid_variable_costs : ℚ := 30
  let Grid_feed_in_costs : ℚ := -79/10
  [ Node.bus "electricity" true,
    Node.bus "mobility" true,
    Node.source
      { label := "pv"
        outputs := [("electricity",
          { fix := some ts.PV_load
            nominal_value := some 1
            variable_costs := PV_variable_costs })] },
    Node.source
      { label := "wallbox"
        outputs := [("mobility",
          { max := some ts.BEV_state
            nominal_value := some wallbox_power
            variable_costs := Grid_variable_costs })] },
    Node.source
      { label := "grid-supply"
        outputs := [("electricity",
          { variable_costs := Grid_variable_costs
            nominal_value := some grid_supply })] },
    Node.sink
      { label := "excess_bel"
        inputs := [("electricity", { variable_costs := Grid_feed_in_costs })] },
    Node.sink
      { label := "demand"
        inputs := [("electricity",
          { fix := some ts.demand
            nominal_value := some 1 })] },
    Node.storage
      { label := "BEV_Storage"
        inputs := [("mobility", {})]
        outputs := [("mobility", {})]
        nominal_storage_capacity := 45
        min_storage_level := 2/5
        max_storage_level := 19/20
        initial_storage_level := 19/20
        fixed_losses_absolute := ts.BEV_consumption.map (fun q => q * 4) } ]

/-- The storage nodes among a node list. -/
def storagesOf (nodes : List Node) : List StorageNode :=
  nodes.filterMap (fun n => match n with
    | Node.storage s => some s
    | _ => none)

/-- The source nodes among a node list. -/
def sourcesOf (nodes : List Node) : List SourceNode :=
  nodes.filterMap (fun n => match n with
    | Node.source s => some s
    | _ => none)

/-- The first source with the given label, `es.groups[label]`-style lookup. -/
def findSource (nodes : List Node) (label : String) : Option SourceNode :=
  (sourcesOf nodes).find? (fun s => s.label == label)

/-- Every flow occurring on any node of the list (source outputs, sink
inputs, storage inputs and outputs). -/
def allFlows (nodes : List Node) : List Flow :=
  nodes.flatMap (fun n => match n with
    | Node.bus _ _ => []
    | Node.source s => s.outputs.map (fun o => o.2)
    | Node.sink s => s.inputs.map (fun i => i.2)
    | Node.storage s => s.inputs.map (fun i => i.2) ++ s.outputs.map (fun o => o.2))

/-- A concrete input table in which all five required columns are present
but each series has length 1, far shorter than the 672-period time index. -/
def shortTable : Table :=
  [("BEV_at_home", [0]), ("PV_kW", [0]), ("Load_kW", [0]),
   ("consumption", [0]), ("charging_power_kW", [0])]

/-! ## Compiled linear program and solutions

The network model is compiled and solved outside this repository
(oemof.solph builds the pyomo program, cbc solves it).  The constraint
families below are therefore rendered from the spec's Optimization
Compiler contract (§4.2) over the embedded node graph. -/

/-- A directed arc of the flow network: origin label, destination label and
the flow attributes attached to it. -/
structure Arc where
  src : String
  dst : String
  flow : Flow
deriving DecidableEq, Repr

/-- The arcs induced by the node list: every source output, sink input and
storage input/output connects the component to its bus. -/
def arcsOf (nodes : List Node) : List Arc :=
  nodes.flatMap (fun n => match n with
    | Node.bus _ _ => []
    | Node.source s => s.outputs.map (fun o => ⟨s.label, o.1, o.2⟩)
    | Node.sink s => s.inputs.map (fun i => ⟨i.1, s.label, i.2⟩)
    | Node.storage s =>
        s.inputs.map (fun i => ⟨i.1, s.label, i.2⟩)
          ++ s.outputs.map (fun o => ⟨s.label, o.1, o.2⟩))

/-- The labels of the bus nodes of the list. -/
def busLabelsOf (nodes : List Node) : List String :=
  nodes.filterMap (fun n => match n with
    | Node.bus l _ => some l
    | _ => none)

/-- Modelled from the spec: the solver's variable assignment (§6 solver
boundary) — one value per arc per timestep, keyed by arc endpoints, and one
level per storage node per timestep. -/
structure LPSolution where
  flowVal : String → String → Nat → ℚ
  level : String → Nat → ℚ

/-- Sum of the flow values entering the node labeled `lbl` at timestep `t`. -/
def inflowSum (nodes : List Node) (sol : LPSolution) (lbl : String) (t : Nat) : ℚ :=
  (((arcsOf nodes).filter (fun a => a.dst == lbl)).map
    (fun a => sol.flowVal a.src a.dst t)).sum

/-- Sum of the flow values leaving the node labeled `lbl` at timestep `t`. -/
def outflowSum (nodes : List Node) (sol : LPSolution) (lbl : String) (t : Nat) : ℚ :=
  (((arcsOf nodes).filter (fun a => a.src == lbl)).map
    (fun a => sol.flowVal a.src a.dst t)).sum

/-- Modelled from the spec: §4.2's per-arc constraints at one timestep —
non-negativity; a fixed profile pins the value to `fix[t] × nominal_value`;
otherwise a max profile bounds it by `max[t] × nominal_value`; otherwise a
set `nominal_value` bounds it; otherwise the flow is unbounded above. -/
def flowConstraintOk (f : Flow) (v : Nat → ℚ) (t : Nat) : Bool :=
  decide (0 ≤ v t) &&
  (match f.fix with
   | some s => decide (v t = s.getD t 0 * f.nominal_value.getD 1)
   | none =>
     match f.max with
     | some m => decide (v t ≤ m.getD t 0 * f.nominal_value.getD 1)
     | none =>
       match f.nominal_value with
       | some nv => decide (v t ≤ nv)
       | none => true)

/-- Modelled from the spec: §4.2's per-storage constraints at one timestep —
the level lies in `[capacity·min, capacity·max]` and obeys the transition
equation `level[t] = level[t-1] + inflow[t] - outflow[t] - fixed_loss[t]`,
with `level[0]` anchored to `capacity·initial` plus the period-0 flows. -/
def storageConstraintOk (nodes : List Node) (sol : LPSolution)
    (st : StorageNode) (t : Nat) : Bool :=
  decide (st.nominal_storage_capacity * st.min_storage_level ≤ sol.level st.label t) &&
  decide (sol.level st.label t ≤ st.nominal_storage_capacity * st.max_storage_level) &&
  decide (sol.level st.label t =
    (if t = 0 then st.nominal_storage_capacity * st.initial_storage_level
     else sol.level st.label (t - 1))
      + inflowSum nodes sol st.label t - outflowSum nodes sol st.label t
      - st.fixed_losses_absolute.getD t 0)

/-- Modelled from the spec: a solved Solution — a variable assignment
satisfying every constraint §4.2 compiles from the network model over a
time index of length `T`: arc constraints, storage constraints, and one
balance equality per bus per timestep. -/
def feasible (T : Nat) (nodes : List Node) (sol : LPSolution) : Prop :=
  (∀ a ∈ arcsOf nodes, ∀ t, t < T →
      flowConstraintOk a.flow (sol.flowVal a.src a.dst) t = true) ∧
  (∀ st ∈ storagesOf nodes, ∀ t, t < T →
      storageConstraintOk nodes sol st t = true) ∧
  (∀ bl ∈ busLabelsOf nodes, ∀ t, t < T →
      inflowSum nodes sol bl t = outflowSum nodes sol bl t)

/-- The all-zero exogenous input over a single timestep. -/
def zeroTimeseries : Timeseries :=
  { BEV_state := [0], PV_load := [0], demand := [0],
    BEV_consumption := [0], BEV_charging := [0] }

/-- The dispatch the solver returns on the all-zero input: no flow moves
and the BEV storage stays at its initial level `45 × 0.95 = 171/4`. -/
def zeroSolution : LPSolution :=
  { flowVal := fun _ _ _ => 0, level := fun _ _ => 171/4 }

end Case1

namespace Emobpy

/-! ## emobpy helper modules
(`save_profiles.py`, `create_rules.py`, `calculate_consumption.py`) -/

/-- A dynamically typed value stored in a profile record. -/
inductive PyVal where
  | str (s : String)
  | num (q : ℚ)
  | series (ts : List ℚ)
deriving DecidableEq, Repr

/-- A Python dict with string keys, as an association list; a lookup
returns the first match.  Inputs representing genuine Python dicts have
pairwise distinct keys. -/
abbrev Dict (V : Type) := List (String × V)

/-- Embeds `d.get(k)`: the value stored under `k`, `none` when the key is absent. -/
def dictGet? {V : Type} (d : Dict V) (k : String) : Option V :=
  (d.find? (fun e => e.1 == k)).map (fun e => e.2)

/-- Embeds `d.get(k, default)`. -/
def dictGetD {V : Type} (d : Dict V) (k : String) (dflt : V) : V :=
  (dictGet? d k).getD dflt

/-- A profile-database entry: either a dict-shaped record or some other
value (`isinstance(v, dict)` distinguishes the two). -/
inductive DBEntry where
  | record (fields : Dict PyVal)
  | other (v : PyVal)
deriving DecidableEq, Repr

/-- The test `isinstance(v, dict) and v.get("kind") == "consumption"` from
`get_consumption_profiles`. -/
def isConsumptionEntry : DBEntry → Bool
  | DBEntry.record fields => dictGet? fields "kind" == some (PyVal.str "consumption")
  | DBEntry.other _ => false

/-- Embeds `get_consumption_profiles` (save_profiles.py lines 60-68, identically
calculate_consumption.py lines 57-82): the dict comprehension keeping
exactly the entries that are dicts whose `kind` tag equals
`"consumption"`. -/
def get_consumption_profiles (db : Dict DBEntry) : Dict DBEntry :=
  db.filter (fun kv => isConsumptionEntry kv.2)

/-- A small concrete profile database: one consumption record, one driving
record, one non-dict entry. -/
def dbExample : Dict DBEntry :=
  [("profile1", DBEntry.record
      [("kind", PyVal.str "consumption"), ("timeseries", PyVal.series [1, 2])]),
   ("profile2", DBEntry.record [("kind", PyVal.str "driving")]),
   ("meta", DBEntry.other (PyVal.num 5))]

/-- Embeds `get_timeserie_from_consumption_profiles` (save_profiles.py lines
71-102): walks the profiles in order; a profile with a `"timeseries"` key
contributes its payload to the result, one without it is reported in a
warning and skipped.  Returns the extracted dict together with the warned
profile names. -/
def get_timeserie_from_consumption_profiles :
    Dict (Dict PyVal) → Dict PyVal × List String
  | [] => ([], [])
  | (k, profile) :: rest =>
    let r := get_timeserie_from_consumption_profiles rest
    match dictGet? profile "timeseries" with
    | some v => ((k, v) :: r.1, r.2)
    | none => (r.1, k :: r.2)

/-- Embeds `save_timeseries_to_csv` (save_profiles.py lines 105-128): for each
profile the loop rebinds `filename` to `os.path.join(path, profile + ".csv")`
and writes the frame there.  Returns the (file path, frame) pairs written,
in order, together with the final value of the `filename` binding. -/
def save_timeseries_to_csv {Frame : Type} (timeseries_data : Dict Frame)
    (path : String) (filename : String) : List (String × Frame) × String :=
  timeseries_data.foldl
    (fun acc pf =>
      let fname := path ++ "/" ++ pf.1 ++ ".csv"
      (acc.1 ++ [(fname, pf.2)], fname))
    ([], filename)

/-- A single Python dict update `d[k] = v` on the association-list
representation: overwrite the value stored under an existing key, append
the pair otherwise. -/
def dictSet {V : Type} : Dict V → String → V → Dict V
  | [], k, v => [(k, v)]
  | e :: rest, k, v =>
    if e.1 == k then (e.1, v) :: rest else e :: dictSet rest k v

/-- The Python dict merge used in `get_rules_for_group`: copy `a`, then
write every pair of `b` over it — on a shared key the value from `b`
wins. -/
def pyMerge {V : Type} (a b : Dict V) : Dict V :=
  b.foldl (fun acc kv => dictSet acc kv.1 kv.2) a

/-- The rules `get_rules_for_group` returns: one merged dict for weekdays
and one for weekends. -/
structure GroupRules (V : Type) where
  weekday : Dict V
  weekend : Dict V
deriving DecidableEq, Repr

/-- Embeds `get_rules_for_group` (create_rules.py lines 14-42): look the group up
in `specifics_rules` (empty when absent) and overlay its `"weekday"` and
`"weekend"` sub-dicts on `base_day_rules`. -/
def get_rules_for_group {V : Type} (group : String)
    (specifics_rules : Dict (Dict (Dict V))) (base_day_rules : Dict V) :
    GroupRules V :=
  let group_specs := dictGetD specifics_rules group []
  { weekday := pyMerge base_day_rules (dictGetD group_specs "weekday" [])
    weekend := pyMerge base_day_rules (dictGetD group_specs "weekend" []) }

/-- Concrete group-specific rules: the commuter group overrides the base
start time on weekdays. -/
def specificsExample : Dict (Dict (Dict String)) :=
  [("commuter", [("weekday", [("start", "8")]), ("weekend", [])])]

/-- Concrete base day rules shared by all groups. -/
def baseDayExample : Dict String :=
  [("start", "9"), ("end", "17")]

end Emobpy

/-- C1: the run succeeds iff the solver status is `ok` and the termination
condition is `optimal`; for any other pair the run fails with an error
message interpolating the raw status, the raw termination condition and the
solver message, and neither result extraction nor persistence runs. -/
theorem c1_solve_status_classification (r : Case1.SolverResults) :
    Case1.run_after_solve r =
      if r.status = Case1.SolverStatus.ok ∧
          r.termination_condition = Case1.TermCond.optimal then
        { solveError := none, extracted := true, dumped := true }
      else
        { solveError := some
            ("The energy system could not find a solution. Solver status: "
              ++ Case1.statusName r.status
              ++ " Termination condition: " ++ Case1.termName r.termination_condition
              ++ " Message: " ++ r.message
              ++ " Simulation aborted."),
          extracted := false, dumped := false } := by
  unfold Case1.run_after_solve Case1.solve_energysystem Case1.solveFailureMessage
  by_cases h : r.status = Case1.SolverStatus.ok ∧
      r.termination_condition = Case1.TermCond.optimal
  · have hc : ¬(r.status ≠ Case1.SolverStatus.ok ∨
        r.termination_condition ≠ Case1.TermCond.optimal) := by tauto
    rw [if_neg hc, if_pos h]
  · have hc : r.status ≠ Case1.SolverStatus.ok ∨
        r.termination_condition ≠ Case1.TermCond.optimal := by tauto
    rw [if_pos hc, if_neg h]

/-- C2 counterexample: an input table whose required series are all present
but of length 1 (shorter than the 672-period time index) is not rejected:
`define_timeseries` succeeds, so network-model construction does not fail
before compilation begins. -/
theorem c2_short_series_not_rejected :
    (Case1.define_timeseries Case1.shortTable).isOk = true ∧
    (Case1.colGet Case1.shortTable "PV_kW").map List.length = some 1 ∧
    Case1.periods = 672 := by
  refine ⟨rfl, rfl, rfl⟩

/-- C2 (amended): `define_timeseries` fails (with a key-lookup error, as
pandas raises `KeyError`) exactly when one of the five required columns is
missing from the input table; the length of a present series is never
checked, so a series shorter than `periods` does not make construction
fail before compilation. -/
theorem c2_missing_series_detection (df : Case1.Table) :
    (Case1.define_timeseries df).isOk =
      Case1.requiredColumns.all (fun n => (Case1.colGet df n).isSome) := by
  unfold Case1.define_timeseries Case1.requiredColumns Case1.requireCol
  cases h1 : Case1.colGet df "BEV_at_home" <;>
    cases h2 : Case1.colGet df "PV_kW" <;>
      cases h3 : Case1.colGet df "Load_kW" <;>
        cases h4 : Case1.colGet df "consumption" <;>
          cases h5 : Case1.colGet df "charging_power_kW" <;>
            simp [h1, h2, h3, h4, h5, Except.isOk, Except.toBool, bind,
              Except.bind, pure, Except.pure]

/-- C3: the constructed network model contains exactly one storage node; it
is labeled `BEV_Storage`, charges from and discharges to the `mobility`
bus, has `min_storage_level = 0.4`, `max_storage_level = 0.95`,
`initial_storage_level = 0.95`, and its absolute fixed loss equals the
consumption series times 4 at every timestep. -/
theorem c3_bev_storage (ts : Case1.Timeseries) (grid_supply wallbox_power : ℚ) :
    ∃ s : Case1.StorageNode,
      Case1.storagesOf (Case1.create_oemof_objects ts grid_supply wallbox_power)
          = [s] ∧
      s.label = "BEV_Storage" ∧
      s.inputs = [("mobility", {})] ∧
      s.outputs = [("mobility", {})] ∧
      s.min_storage_level = 0.4 ∧
      s.max_storage_level = 0.95 ∧
      s.initial_storage_level = 0.95 ∧
      s.fixed_losses_absolute.length = ts.BEV_consumption.length ∧
      ∀ t : Nat, s.fixed_losses_absolute.getD t 0 = ts.BEV_consumption.getD t 0 * 4 := by
  refine ⟨_, rfl, rfl, rfl, rfl, by norm_num, by norm_num, by norm_num,
    by simp, fun t => ?_⟩
  show (ts.BEV_consumption.map (fun q => q * 4)).getD t 0
      = ts.BEV_consumption.getD t 0 * 4
  simp [List.getD_eq_getElem?_getD, List.getElem?_map]
  cases ts.BEV_consumption[t]? <;> simp

/-- C4: the charger source (`wallbox`) has a single outbound flow, into the
`mobility` bus (not the `electricity` bus), with `max` equal to the
EV-at-home indicator series, `nominal_value` equal to the wallbox power
rating, no fixed profile, and variable cost 30 — the same grid price the
`grid-supply` source's flow carries. -/
theorem c4_wallbox_charger (ts : Case1.Timeseries) (grid_supply wallbox_power : ℚ) :
    Case1.findSource (Case1.create_oemof_objects ts grid_supply wallbox_power)
        "wallbox" =
      some { label := "wallbox"
             outputs := [("mobility",
               { fix := none
                 max := some ts.BEV_state
                 nominal_value := some wallbox_power
                 variable_costs := 30 })] } ∧
    ∃ gridFlow : Case1.Flow,
      Case1.findSource (Case1.create_oemof_objects ts grid_supply wallbox_power)
          "grid-supply" =
        some { label := "grid-supply"
               outputs := [("electricity", gridFlow)] } ∧
      gridFlow.variable_costs = 30 := by
  exact ⟨rfl, ⟨_, rfl, rfl⟩⟩

/-- C6: every flow in the constructed network model has at most one of
`fix` and `max` set: no flow is both pinned to a fixed profile and bounded
by a max profile. -/
theorem c6_flows_fix_max_exclusive (ts : Case1.Timeseries)
    (grid_supply wallbox_power : ℚ) :
    ((Case1.allFlows (Case1.create_oemof_objects ts grid_supply wallbox_power)).all
      (fun f => !(f.fix.isSome && f.max.isSome))) = true := by
  rfl

/-- C5: in every solved Solution of the constructed network model, for
every bus and every timestep the sum of inbound flow values equals the sum
of outbound flow values. -/
theorem c5_bus_balance (ts : Case1.Timeseries) (grid_supply wallbox_power : ℚ)
    (T : Nat) (sol : Case1.LPSolution) (bl : String) (t : Nat)
    (hfeas : Case1.feasible T
      (Case1.create_oemof_objects ts grid_supply wallbox_power) sol)
    (hbus : bl ∈ Case1.busLabelsOf
      (Case1.create_oemof_objects ts grid_supply wallbox_power))
    (ht : t < T) :
    Case1.inflowSum (Case1.create_oemof_objects ts grid_supply wallbox_power)
        sol bl t =
      Case1.outflowSum (Case1.create_oemof_objects ts grid_supply wallbox_power)
        sol bl t :=
  hfeas.2.2 bl hbus t ht

/-- C5 witness: on the all-zero one-step input, the zero dispatch is a
solved Solution, and the electricity bus balances at timestep 0. -/
theorem c5_bus_balance_witness :
    Case1.inflowSum
        (Case1.create_oemof_objects Case1.zeroTimeseries 30 11)
        Case1.zeroSolution "electricity" 0 =
      Case1.outflowSum
        (Case1.create_oemof_objects Case1.zeroTimeseries 30 11)
        Case1.zeroSolution "electricity" 0 :=
  c5_bus_balance Case1.zeroTimeseries 30 11 1 Case1.zeroSolution "electricity" 0
    (by
      refine ⟨?_, ?_, ?_⟩
      · intro a ha t ht
        interval_cases t
        simp [Case1.arcsOf, Case1.create_oemof_objects, Case1.zeroTimeseries] at ha
        rcases ha with rfl | rfl | rfl | rfl | rfl | rfl | rfl <;>
          simp [Case1.flowConstraintOk, Case1.zeroSolution]
      · intro st hst t ht
        interval_cases t
        simp [Case1.storagesOf, Case1.create_oemof_objects,
          Case1.zeroTimeseries] at hst
        rcases hst with rfl
        simp [Case1.storageConstraintOk, Case1.zeroSolution, Case1.inflowSum,
          Case1.outflowSum, Case1.arcsOf, Case1.create_oemof_objects,
          Case1.zeroTimeseries]
        norm_num
      · intro bl hbl t ht
        interval_cases t
        simp [Case1.busLabelsOf, Case1.create_oemof_objects,
          Case1.zeroTimeseries] at hbl
        rcases hbl with rfl | rfl <;>
          simp [Case1.inflowSum, Case1.outflowSum, Case1.arcsOf,
            Case1.create_oemof_objects, Case1.zeroTimeseries, Case1.zeroSolution])
    (by simp [Case1.busLabelsOf, Case1.create_oemof_objects]) (by norm_num)

/-- C7: `get_consumption_profiles` returns exactly the database entries
that are records carrying the kind tag `"consumption"`: every returned
entry is an entry of the database with that tag, and every database entry
with that tag appears in the result under its original name. -/
theorem c7_consumption_profile_filter (db : Emobpy.Dict Emobpy.DBEntry) :
    (∀ kv ∈ Emobpy.get_consumption_profiles db,
        kv ∈ db ∧ Emobpy.isConsumptionEntry kv.2 = true) ∧
    (∀ kv ∈ db, Emobpy.isConsumptionEntry kv.2 = true →
        kv ∈ Emobpy.get_consumption_profiles db) := by
  constructor
  · intro kv h
    exact ⟨(List.mem_filter.mp h).1, (List.mem_filter.mp h).2⟩
  · intro kv h hc
    exact List.mem_filter.mpr ⟨h, hc⟩

/-- C7 witness: in the example database, the consumption record appears in
the result under its original name. -/
theorem c7_consumption_profile_filter_witness :
    ("profile1", Emobpy.DBEntry.record
        [("kind", Emobpy.PyVal.str "consumption"),
         ("timeseries", Emobpy.PyVal.series [1, 2])]) ∈
      Emobpy.get_consumption_profiles Emobpy.dbExample :=
  (c7_consumption_profile_filter Emobpy.dbExample).2 _
    (by simp [Emobpy.dbExample]) rfl

/-- The extracted part of `get_timeserie_from_consumption_profiles` is the
in-order collection of the `"timeseries"` payloads that exist. -/
theorem gtfcp_fst_eq (ps : Emobpy.Dict (Emobpy.Dict Emobpy.PyVal)) :
    (Emobpy.get_timeserie_from_consumption_profiles ps).1 =
      ps.filterMap (fun kp =>
        (Emobpy.dictGet? kp.2 "timeseries").map (fun v => (kp.1, v))) := by
  induction ps with
  | nil => rfl
  | cons hd tl ih =>
    obtain ⟨k, p⟩ := hd
    cases h : Emobpy.dictGet? p "timeseries" <;>
      simp [Emobpy.get_timeserie_from_consumption_profiles, h, ih,
        List.filterMap_cons]

/-- The warned part of `get_timeserie_from_consumption_profiles` is the
in-order list of names of profiles lacking a `"timeseries"` key. -/
theorem gtfcp_snd_eq (ps : Emobpy.Dict (Emobpy.Dict Emobpy.PyVal)) :
    (Emobpy.get_timeserie_from_consumption_profiles ps).2 =
      (ps.filter (fun kp => (Emobpy.dictGet? kp.2 "timeseries").isNone)).map
        Prod.fst := by
  induction ps with
  | nil => rfl
  | cons hd tl ih =>
    obtain ⟨k, p⟩ := hd
    cases h : Emobpy.dictGet? p "timeseries" <;>
      simp [Emobpy.get_timeserie_from_consumption_profiles, h, ih,
        List.filter_cons]

/-- C8: extracting timeseries payloads keeps exactly the profiles carrying
a `"timeseries"` entry, each mapped to that entry; a profile lacking it is
reported among the warnings and skipped — every other profile is still
extracted, and the function is total (no failure aborts the extraction). -/
theorem c8_timeseries_extraction (ps : Emobpy.Dict (Emobpy.Dict Emobpy.PyVal)) :
    (∀ k v, (k, v) ∈ (Emobpy.get_timeserie_from_consumption_profiles ps).1 ↔
        ∃ p, (k, p) ∈ ps ∧ Emobpy.dictGet? p "timeseries" = some v) ∧
    (∀ k, k ∈ (Emobpy.get_timeserie_from_consumption_profiles ps).2 ↔
        ∃ p, (k, p) ∈ ps ∧ Emobpy.dictGet? p "timeseries" = none) := by
  constructor
  · intro k v
    rw [gtfcp_fst_eq, List.mem_filterMap]
    constructor
    · rintro ⟨⟨k', p⟩, hmem, hmap⟩
      rw [Option.map_eq_some'] at hmap
      obtain ⟨w, hw, heq⟩ := hmap
      obtain ⟨rfl, rfl⟩ := Prod.mk.injEq _ _ _ _ |>.mp heq
      exact ⟨p, hmem, hw⟩
    · rintro ⟨p, hmem, hget⟩
      exact ⟨(k, p), hmem, by simp [hget]⟩
  · intro k
    rw [gtfcp_snd_eq, List.mem_map]
    constructor
    · rintro ⟨⟨k', p⟩, hmem, rfl⟩
      rw [List.mem_filter] at hmem
      refine ⟨p, hmem.1, ?_⟩
      simpa [Option.isNone_iff_eq_none] using hmem.2
    · rintro ⟨p, hmem, hget⟩
      exact ⟨(k, p), List.mem_filter.mpr ⟨hmem, by simp [hget]⟩, rfl⟩

/-- The writes performed by `save_timeseries_to_csv`'s loop, for any
accumulator state: one file per profile, named `path/profile.csv`. -/
theorem save_timeseries_foldl {Frame : Type} (path : String) :
    ∀ (data : Emobpy.Dict Frame) (acc : List (String × Frame)) (fn : String),
      (List.foldl (fun acc pf =>
          let fname := path ++ "/" ++ pf.1 ++ ".csv"
          (acc.1 ++ [(fname, pf.2)], fname)) (acc, fn) data).1 =
        acc ++ data.map (fun pf => (path ++ "/" ++ pf.1 ++ ".csv", pf.2))
  | [], acc, fn => by simp
  | pf :: rest, acc, fn => by
    simp only [List.foldl_cons, List.map_cons]
    rw [save_timeseries_foldl path rest]
    simp

/-- C9: for every non-empty timeseries dictionary, `save_timeseries_to_csv`
writes each profile to `path/profile.csv`, and the caller-supplied
`filename` argument never influences which files are written. -/
theorem c9_filename_ignored {Frame : Type} (data : Emobpy.Dict Frame)
    (path f1 f2 : String) (h : data ≠ []) :
    (Emobpy.save_timeseries_to_csv data path f1).1 =
      data.map (fun pf => (path ++ "/" ++ pf.1 ++ ".csv", pf.2)) ∧
    (Emobpy.save_timeseries_to_csv data path f1).1 =
      (Emobpy.save_timeseries_to_csv data path f2).1 := by
  unfold Emobpy.save_timeseries_to_csv
  rw [save_timeseries_foldl path data [] f1, save_timeseries_foldl path data [] f2]
  simp

/-- C9 witness: at a one-profile dictionary, the default-looking filename
argument and a different one produce the same single write
`results/profile1.csv`. -/
theorem c9_filename_ignored_witness :
    (Emobpy.save_timeseries_to_csv [("profile1", "rows")] "results"
        "timeseries_output.csv").1 =
      [("profile1", "rows")].map
        (fun pf => ("results" ++ "/" ++ pf.1 ++ ".csv", pf.2)) ∧
    (Emobpy.save_timeseries_to_csv [("profile1", "rows")] "results"
        "timeseries_output.csv").1 =
      (Emobpy.save_timeseries_to_csv [("profile1", "rows")] "results"
        "other.csv").1 :=
  c9_filename_ignored [("profile1", "rows")] "results" "timeseries_output.csv"
    "other.csv" (by simp)

/-- Looking a key up after a dict update: the written key returns the new
value, every other key is unaffected. -/
theorem dictGet?_dictSet {V : Type} (k k' : String) (v : V)
    (d : Emobpy.Dict V) :
    Emobpy.dictGet? (Emobpy.dictSet d k v) k' =
      if k' = k then some v else Emobpy.dictGet? d k' := by
  induction d with
  | nil =>
    by_cases h : k' = k
    · simp [Emobpy.dictSet, Emobpy.dictGet?, h]
    · have hf : (k == k') = false := by
        simp only [beq_eq_false_iff_ne, ne_eq]
        exact fun hx => h hx.symm
      simp [Emobpy.dictSet, Emobpy.dictGet?, List.find?, hf, h]
  | cons e rest ih =>
    by_cases he : e.1 = k
    · rw [show Emobpy.dictSet (e :: rest) k v = (e.1, v) :: rest by
        simp [Emobpy.dictSet, he]]
      by_cases h : k' = k
      · subst h
        have ht : (e.1 == k') = true := by simp [he]
        simp [Emobpy.dictGet?, List.find?_cons, ht]
      · have hf : (e.1 == k') = false := by
          simp only [beq_eq_false_iff_ne, ne_eq]
          exact fun hx => h (hx.symm.trans he)
        simp [Emobpy.dictGet?, List.find?_cons, hf, h]
    · rw [show Emobpy.dictSet (e :: rest) k v = e :: Emobpy.dictSet rest k v by
        simp [Emobpy.dictSet, he]]
      by_cases h2 : e.1 = k'
      · have ht : (e.1 == k') = true := by simp [h2]
        have hk : ¬ k' = k := fun hx => he (h2.trans hx)
        simp [Emobpy.dictGet?, List.find?_cons, ht, hk]
      · have hf : (e.1 == k') = false := by simp [h2]
        simp only [Emobpy.dictGet?, List.find?_cons, hf] at ih ⊢
        simpa [Emobpy.dictGet?] using ih

/-- A key absent from a dict's key list looks up to `none`. -/
theorem dictGet?_eq_none_of_not_mem {V : Type} (k : String)
    (d : Emobpy.Dict V) (h : k ∉ d.map Prod.fst) :
    Emobpy.dictGet? d k = none := by
  induction d with
  | nil => rfl
  | cons e rest ih =>
    simp only [List.map_cons, List.mem_cons] at h
    push_neg at h
    have hf : (e.1 == k) = false := by
      simp only [beq_eq_false_iff_ne, ne_eq]
      exact fun hx => h.1 hx.symm
    simp only [Emobpy.dictGet?, List.find?_cons, hf] at ih ⊢
    exact ih h.2

/-- Lookup through the Python merge: on every key the value from the
overlay dict wins, and the base dict answers otherwise (the overlay has
Python-dict keys, i.e. no duplicates). -/
theorem dictGet?_pyMerge {V : Type} (k : String) :
    ∀ (b a : Emobpy.Dict V), (b.map Prod.fst).Nodup →
      Emobpy.dictGet? (Emobpy.pyMerge a b) k =
        (Emobpy.dictGet? b k).or (Emobpy.dictGet? a k) := by
  intro b
  induction b with
  | nil => intro a _; simp [Emobpy.pyMerge, Emobpy.dictGet?, Option.or]
  | cons e rest ih =>
    intro a h
    obtain ⟨k0, v0⟩ := e
    have hmerge : Emobpy.pyMerge a ((k0, v0) :: rest) =
        Emobpy.pyMerge (Emobpy.dictSet a k0 v0) rest := rfl
    simp only [List.map_cons, List.nodup_cons] at h
    rw [hmerge, ih (Emobpy.dictSet a k0 v0) h.2, dictGet?_dictSet]
    by_cases hk : k = k0
    · subst hk
      rw [dictGet?_eq_none_of_not_mem k rest h.1]
      have ht : (k == k) = true := by simp
      simp [Emobpy.dictGet?, List.find?_cons, ht, Option.or]
    · have hf : (k0 == k) = false := by
        simp only [beq_eq_false_iff_ne, ne_eq]
        exact fun hx => hk hx.symm
      simp [Emobpy.dictGet?, List.find?_cons, hf, hk]

/-- C10: `get_rules_for_group` overlays the group-specific weekday and
weekend rules on the base day rules with the group-specific value winning
on every shared key, and for a group absent from `specifics_rules` both
results equal `base_day_rules` (the merge builds fresh dicts; the inputs
appear unchanged on the right-hand sides). -/
theorem c10_group_rule_merge {V : Type} (group : String)
    (specifics_rules : Emobpy.Dict (Emobpy.Dict (Emobpy.Dict V)))
    (base_day_rules : Emobpy.Dict V)
    (hwd : ((Emobpy.dictGetD (Emobpy.dictGetD specifics_rules group [])
        "weekday" []).map Prod.fst).Nodup)
    (hwe : ((Emobpy.dictGetD (Emobpy.dictGetD specifics_rules group [])
        "weekend" []).map Prod.fst).Nodup) :
    (∀ k, Emobpy.dictGet?
        (Emobpy.get_rules_for_group group specifics_rules base_day_rules).weekday k
      = (Emobpy.dictGet? (Emobpy.dictGetD (Emobpy.dictGetD specifics_rules group [])
            "weekday" []) k).or (Emobpy.dictGet? base_day_rules k)) ∧
    (∀ k, Emobpy.dictGet?
        (Emobpy.get_rules_for_group group specifics_rules base_day_rules).weekend k
      = (Emobpy.dictGet? (Emobpy.dictGetD (Emobpy.dictGetD specifics_rules group [])
            "weekend" []) k).or (Emobpy.dictGet? base_day_rules k)) ∧
    (Emobpy.dictGet? specifics_rules group = none →
      (Emobpy.get_rules_for_group group specifics_rules base_day_rules).weekday
          = base_day_rules ∧
      (Emobpy.get_rules_for_group group specifics_rules base_day_rules).weekend
          = base_day_rules) := by
  refine ⟨fun k => ?_, fun k => ?_, fun habs => ?_⟩
  · exact dictGet?_pyMerge k _ base_day_rules hwd
  · exact dictGet?_pyMerge k _ base_day_rules hwe
  · have h0 : Emobpy.dictGetD specifics_rules group
        ([] : Emobpy.Dict (Emobpy.Dict V)) = [] := by
      unfold Emobpy.dictGetD
      rw [habs]
      rfl
    constructor
    · show Emobpy.pyMerge base_day_rules
          (Emobpy.dictGetD (Emobpy.dictGetD specifics_rules group [])
            "weekday" []) = base_day_rules
      rw [h0]
      rfl
    · show Emobpy.pyMerge base_day_rules
          (Emobpy.dictGetD (Emobpy.dictGetD specifics_rules group [])
            "weekend" []) = base_day_rules
      rw [h0]
      rfl

/-- C10 witness: for the commuter group of the example rules, the weekday
lookup of `"start"` is the group-specific value overlaid on the base. -/
theorem c10_group_rule_merge_witness :
    Emobpy.dictGet?
        (Emobpy.get_rules_for_group "commuter" Emobpy.specificsExample
          Emobpy.baseDayExample).weekday "start" =
      (Emobpy.dictGet? (Emobpy.dictGetD (Emobpy.dictGetD Emobpy.specificsExample
          "commuter" []) "weekday" []) "start").or
        (Emobpy.dictGet? Emobpy.baseDayExample "start") :=
  (c10_group_rule_merge "commuter" Emobpy.specificsExample Emobpy.baseDayExample
    (by decide) (by decide)).1 "start"
